import Mathlib

/-!
Formal model of `src/heic2jpg.py`, a batch HEIC/HEIF to JPEG converter.

Pure paths are modelled as lists of components (`PyPath`), Python strings in
printed messages as `List Char`, and the external image/metadata libraries
(Pillow, pillow-heif, piexif) as oracles whose individual calls either return
a value or raise (`Except`).  Filesystem writes performed by the converter are
recorded in an explicit effect trace (`FSEffect`).
-/

/-- Errors raised by the modelled Python code: `RuntimeError` (with its
message) as raised by `run_batch`, and `ValueError` as raised by
`Path.relative_to` / `Path.with_suffix`. -/
inductive PyErr where
  | runtimeError : List Char → PyErr
  | valueError : PyErr
deriving DecidableEq

/-- Helper for `pySuffix`: index of the last occurrence of a dot in a
character list, scanning left to right from index `i`. -/
def lastDotIdxAux : List Char → Nat → Option Nat → Option Nat
  | [], _, acc => acc
  | c :: rest, i, acc => lastDotIdxAux rest (i + 1) (if c = '.' then some i else acc)

/-- Python `pathlib` suffix of a file name: the substring from the last dot,
provided that dot is neither the first nor the last character (so `".heic"`
and `"x."` have empty suffix), else the empty string. -/
def pySuffix (name : String) : String :=
  let cs := name.toList
  match lastDotIdxAux cs 0 none with
  | none => ""
  | some i => if 0 < i ∧ i < cs.length - 1 then String.mk (cs.drop i) else ""

/-- Python `with_suffix` on a file name: the stem (name minus its current
suffix) followed by the new suffix. -/
def pyWithSuffix (name suf : String) : String :=
  let cs := name.toList
  String.mk (cs.take (cs.length - (pySuffix name).toList.length)) ++ suf

/-- A pure path, as its list of components (pathlib drops `"."` components,
so the empty list models `Path(".")`). -/
abbrev PyPath := List String

/-- Python `Path.name`: the last component, `""` for `Path(".")`. -/
def pathName (p : PyPath) : String := p.getLastD ""

/-- Python `Path.suffix` of a path. -/
def pathSuffix (p : PyPath) : String := pySuffix (pathName p)

/-- Python `Path.relative_to`: succeeds exactly when `root`'s components are
a prefix of `p`'s components (including `p = root`, which yields `Path(".")`),
raising `ValueError` otherwise. -/
def relative_to (p root : PyPath) : Except PyErr PyPath :=
  if p.take root.length = root then Except.ok (p.drop root.length)
  else Except.error PyErr.valueError

/-- Python `Path.with_suffix` on a path: raises `ValueError` on the empty
path (which has no name), else rewrites the last component. -/
def pyPathWithSuffix (p : PyPath) (suf : String) : Except PyErr PyPath :=
  if p.isEmpty then Except.error PyErr.valueError
  else Except.ok (p.dropLast ++ [pyWithSuffix (pathName p) suf])

/-- Model of `make_output_path` (src/heic2jpg.py lines 64-66):
`rel = src.relative_to(input_root); return (output_root / rel).with_suffix(".jpg")`. -/
def make_output_path (src input_root output_root : PyPath) : Except PyErr PyPath :=
  match relative_to src input_root with
  | Except.error e => Except.error e
  | Except.ok rel => pyPathWithSuffix (output_root ++ rel) ".jpg"

/-- One entry of the recursive directory walk `root.rglob("*")`: a path and
whether it is a regular file. -/
structure FSEntry where
  path : PyPath
  is_file : Bool
deriving DecidableEq

/-- Model of the source's `HEIC_EXTS = {".heic", ".heif", ".HEIC", ".HEIF"}`. -/
def HEIC_EXTS : List String := [".heic", ".heif", ".HEIC", ".HEIF"]

/-- Model of `find_heic_files` (line 56-57): filter the walk entries to the
regular files whose suffix is a member of `HEIC_EXTS`, keeping their paths.
The `entries` argument models the result of `root.rglob("*")`. -/
def find_heic_files (entries : List FSEntry) : List PyPath :=
  (entries.filter (fun e => e.is_file && HEIC_EXTS.contains (pathSuffix e.path))).map
    (fun e => e.path)

/-- Case-insensitive extension match, following the spec's words: the
extension equals `.heic` or `.heif` after lowercasing every character. -/
def ci_heic_match (s : String) : Bool :=
  (s.toList.map Char.toLower == ".heic".toList) ||
    (s.toList.map Char.toLower == ".heif".toList)

/-- Model of the quality clamp at the entry point (line 186):
`max(1, min(100, int(args.quality)))`. -/
def clamp_quality (q : Int) : Int := max 1 (min 100 q)

/-- Raw EXIF metadata, an opaque byte string (`bytes` in Python). -/
abbrev ExifBytes := List Nat

/-- The piexif EXIF dictionary, reduced to its `"0th"` IFD: an association
list from tag numbers to values (the other IFDs play no role in the code). -/
abbrev ExifDict := List (Nat × Nat)

/-- piexif's `ImageIFD.Orientation` tag number. -/
def piexif_orientation_tag : Nat := 274

/-- The in-place update `exif_dict["0th"][piexif.ImageIFD.Orientation] = 1`
guarded by the membership test on line 74. -/
def set_orientation_normal (d : ExifDict) : ExifDict :=
  if d.any (fun kv => kv.fst == piexif_orientation_tag) then
    d.map (fun kv => if kv.fst == piexif_orientation_tag then (piexif_orientation_tag, 1) else kv)
  else d

/-- Model of `_fix_orientation_exif_bytes` (lines 69-78).  `piexif_ok` models
whether the `piexif` import succeeded; `load` and `dump` model
`piexif.load` / `piexif.dump`, each of which can raise.  Absent (`none`) or
empty input, or an absent library, pass through; any raise inside the `try`
returns the original bytes. -/
def fix_orientation_exif_bytes (piexif_ok : Bool)
    (load : ExifBytes → Except Unit ExifDict) (dump : ExifDict → Except Unit ExifBytes)
    (exif_bytes : Option ExifBytes) : Option ExifBytes :=
  match exif_bytes with
  | none => none
  | some bs =>
    if bs.isEmpty || !piexif_ok then some bs
    else
      match load bs with
      | Except.error _ => some bs
      | Except.ok d =>
        match dump (set_orientation_normal d) with
        | Except.error _ => some bs
        | Except.ok bs2 => some bs2

/-- A filesystem write performed by the converter: the recursive
`mkdir(parents=True, exist_ok=True)` of `ensure_parent` (lines 60-61), or the
write of the destination file attempted by `img.save(dest, ...)` (line 92). -/
inductive FSEffect where
  | mkdir_parents : PyPath → FSEffect
  | save_file : PyPath → FSEffect
deriving DecidableEq

/-- The per-conversion behaviour of the external libraries and of the
destination's existence check: each Pillow call either returns a value or
raises.  `Img` is the opaque type of decoded Pillow images. -/
structure ConvOracle (Img : Type) where
  dest_exists : Bool
  open_img : Except (List Char) Img
  exif_of : Img → Option ExifBytes
  transpose : Img → Except (List Char) Img
  to_rgb : Img → Except (List Char) Img
  save : Img → Option ExifBytes → Int → PyPath → Except (List Char) Unit
  exif_load : ExifBytes → Except Unit ExifDict
  exif_dump : ExifDict → Except Unit ExifBytes

/-- Message `f"OK: {src.name}"`. -/
def okMsg (src : PyPath) : List Char := "OK: ".toList ++ (pathName src).toList

/-- Message `f"SKIP (exists): {src.name}"`. -/
def skipMsg (src : PyPath) : List Char := "SKIP (exists): ".toList ++ (pathName src).toList

/-- Message `f"ERROR: {src.name} ({e})"`. -/
def errMsg (src : PyPath) (e : List Char) : List Char :=
  "ERROR: ".toList ++ (pathName src).toList ++ " (".toList ++ e ++ ")".toList

/-- Model of `convert_one` (lines 81-95).  Everything runs inside one
`try/except Exception`, so every raise of an oracle call turns into an
`ERROR` message; the function itself never raises.  Returns the status
message together with the trace of filesystem writes performed: the skip
check precedes every write; `ensure_parent` runs before the image is opened;
`img.save` (recorded whether or not it raises, since Pillow opens the
destination before encoding) is the only file write. -/
def convert_one {Img : Type} (o : ConvOracle Img) (piexif_ok : Bool)
    (src dest : PyPath) (quality : Int) (overwrite fix_orientation : Bool) :
    List Char × List FSEffect :=
  if o.dest_exists && !overwrite then
    (skipMsg src, [])
  else
    match o.open_img with
    | Except.error e => (errMsg src e, [FSEffect.mkdir_parents dest.dropLast])
    | Except.ok img0 =>
      let exif0 := o.exif_of img0
      match (if fix_orientation then o.transpose img0 else Except.ok img0) with
      | Except.error e => (errMsg src e, [FSEffect.mkdir_parents dest.dropLast])
      | Except.ok img1 =>
        let exif1 :=
          if fix_orientation then
            fix_orientation_exif_bytes piexif_ok o.exif_load o.exif_dump exif0
          else exif0
        match o.to_rgb img1 with
        | Except.error e => (errMsg src e, [FSEffect.mkdir_parents dest.dropLast])
        | Except.ok img2 =>
          match o.save img2 exif1 quality dest with
          | Except.error e =>
            (errMsg src e, [FSEffect.mkdir_parents dest.dropLast, FSEffect.save_file dest])
          | Except.ok _ =>
            (okMsg src, [FSEffect.mkdir_parents dest.dropLast, FSEffect.save_file dest])

/-- The environment a batch run sees: availability of `pillow_heif` and
`piexif`, the outcome of `register_heif_opener`, the directory walk of the
input directory, and the Pillow behaviour for each source file. -/
structure BatchEnv (Img : Type) where
  heif_available : Bool
  register_heif : Except (List Char) Unit
  piexif_ok : Bool
  entries : List FSEntry
  oracle : PyPath → ConvOracle Img

/-- The `RuntimeError` message raised when `pillow_heif` is missing (line 100). -/
def heif_unavailable_msg : List Char :=
  "HEIC support not available. Install pillow-heif (and libheif on Linux).".toList

/-- Model of the per-file loop of `run_batch` (lines 112-118), threading the
`done`/`errors` counters, the printed messages and the write trace.  The call
`make_output_path(src, input_dir, output_dir)` sits OUTSIDE `convert_one`'s
`try/except`, so its `ValueError` aborts the loop. -/
def run_batch_loop {Img : Type} (env : BatchEnv Img) (input_dir output_dir : PyPath)
    (quality : Int) (overwrite fix_orientation : Bool) :
    List PyPath → Nat → Nat → List (List Char) → List FSEffect →
      Except PyErr (Nat × Nat) × List (List Char) × List FSEffect
  | [], done, errors, msgs, effs => (Except.ok (done, errors), msgs, effs)
  | src :: rest, done, errors, msgs, effs =>
    match make_output_path src input_dir output_dir with
    | Except.error e => (Except.error e, msgs, effs)
    | Except.ok dest =>
      let r := convert_one (env.oracle src) env.piexif_ok src dest quality overwrite
        fix_orientation
      run_batch_loop env input_dir output_dir quality overwrite fix_orientation rest
        (done + 1)
        (if "ERROR".toList.isPrefixOf r.fst then errors + 1 else errors)
        (msgs ++ [r.fst]) (effs ++ r.snd)

/-- Model of `run_batch` (lines 98-119): raise `RuntimeError` if `pillow_heif`
is unavailable or `register_heif_opener()` raises, before touching any file;
otherwise discover the files, run the loop and return
`(total, done, errors)` with the printed lines and the write trace. -/
def run_batch {Img : Type} (env : BatchEnv Img) (input_dir output_dir : PyPath)
    (quality : Int) (overwrite fix_orientation : Bool) :
    Except PyErr (Nat × Nat × Nat) × List (List Char) × List FSEffect :=
  if !env.heif_available then
    (Except.error (PyErr.runtimeError heif_unavailable_msg), [], [])
  else
    match env.register_heif with
    | Except.error e =>
      (Except.error (PyErr.runtimeError ("HEIF initialization failed: ".toList ++ e)), [], [])
    | Except.ok _ =>
      let files := find_heic_files env.entries
      match run_batch_loop env input_dir output_dir quality overwrite fix_orientation
          files 0 0 [] [] with
      | (Except.ok (done, errors), msgs, effs) =>
        (Except.ok (files.length, done, errors), msgs, effs)
      | (Except.error e, msgs, effs) => (Except.error e, msgs, effs)

/-- A trivial oracle over the one-point image type, every call succeeding. -/
def unit_oracle : ConvOracle Unit :=
  ⟨false, Except.ok (), fun _ => none, fun i => Except.ok i, fun i => Except.ok i,
    fun _ _ _ _ => Except.ok (), fun _ => Except.error (), fun _ => Except.error ()⟩

/-- A one-point-image environment whose input directory is empty. -/
def empty_env : BatchEnv Unit :=
  ⟨true, Except.ok (), true, [], fun _ => unit_oracle⟩

/-- A one-point-image environment holding a single HEIC file at
`z/a.heic`, which is NOT under the input root `in` used in the theorems. -/
def bad_entry_env : BatchEnv Unit :=
  ⟨true, Except.ok (), true, [⟨["z", "a.heic"], true⟩], fun _ => unit_oracle⟩

/-- An oracle whose destination file already exists. -/
def exist_oracle : ConvOracle Unit :=
  ⟨true, Except.ok (), fun _ => none, fun i => Except.ok i, fun i => Except.ok i,
    fun _ _ _ _ => Except.ok (), fun _ => Except.error (), fun _ => Except.error ()⟩

/-- An oracle whose `Image.open` call raises with message `boom`. -/
def fail_open_oracle : ConvOracle Unit :=
  ⟨false, Except.error "boom".toList, fun _ => none, fun i => Except.ok i,
    fun i => Except.ok i, fun _ _ _ _ => Except.ok (), fun _ => Except.error (),
    fun _ => Except.error ()⟩

/-- An environment where the `pillow_heif` import failed. -/
def no_heif_env : BatchEnv Unit :=
  ⟨false, Except.ok (), true, [⟨["in", "a.heic"], true⟩], fun _ => unit_oracle⟩

/-- An environment where `register_heif_opener()` raises. -/
def bad_register_env : BatchEnv Unit :=
  ⟨true, Except.error "no libheif".toList, true, [⟨["in", "a.heic"], true⟩],
    fun _ => unit_oracle⟩

/-- Loop invariant: when the per-file loop completes without raising, `done`
has grown by exactly the number of files, one message was printed per file,
and `errors` has grown by exactly the number of printed lines that start with
`"ERROR"`. -/
theorem run_batch_loop_ok_spec {Img : Type} (env : BatchEnv Img) (i o : PyPath)
    (q : Int) (ow fx : Bool) :
    ∀ (files : List PyPath) (d0 e0 : Nat) (ms0 : List (List Char)) (fs0 : List FSEffect)
      (d e : Nat) (ms : List (List Char)) (fs : List FSEffect),
      run_batch_loop env i o q ow fx files d0 e0 ms0 fs0 = (Except.ok (d, e), ms, fs) →
      d = d0 + files.length ∧
      ∃ ms1, ms = ms0 ++ ms1 ∧ ms1.length = files.length ∧
        e = e0 + ms1.countP (fun m => "ERROR".toList.isPrefixOf m) := by
  intro files
  induction files with
  | nil =>
    intro d0 e0 ms0 fs0 d e ms fs h
    simp only [run_batch_loop, Prod.mk.injEq, Except.ok.injEq] at h
    obtain ⟨⟨hd, he⟩, hms, hfs⟩ := h
    exact ⟨by simp [← hd], [], by simp [← hms], by simp, by simp [← he]⟩
  | cons src rest ih =>
    intro d0 e0 ms0 fs0 d e ms fs h
    simp only [run_batch_loop] at h
    split at h
    · simp at h
    · rename_i dest hdest
      obtain ⟨hd, ms1, hms, hlen, he⟩ := ih _ _ _ _ _ _ _ _ h
      refine ⟨?_, (convert_one (env.oracle src) env.piexif_ok src dest q ow fx).fst :: ms1,
        ?_, ?_, ?_⟩
      · simp only [List.length_cons]; omega
      · simp [hms]
      · simp [hlen]
      · rw [List.countP_cons]
        by_cases hp :
            ("ERROR".toList.isPrefixOf
              (convert_one (env.oracle src) env.piexif_ok src dest q ow fx).fst) = true
        · simp only [hp, if_true] at he ⊢; omega
        · simp only [Bool.not_eq_true] at hp
          simp only [hp, if_false, Bool.false_eq_true] at he ⊢
          omega
/-- The only exception `make_output_path` can raise is `ValueError` (from
`relative_to` or `with_suffix`). -/
theorem make_output_path_error_eq (src i o : PyPath) (e : PyErr) :
    make_output_path src i o = Except.error e → e = PyErr.valueError := by
  intro h
  simp only [make_output_path, relative_to, pyPathWithSuffix] at h
  by_cases hc : src.take i.length = i
  · simp only [hc, if_true] at h
    split at h
    · simp at h
      exact h.symm
    · simp at h
  · simp only [hc, if_false] at h
    simp at h
    exact h.symm

/-- If some discovered file's destination mapping raises, the per-file loop
aborts with that `ValueError` instead of recording a per-file error. -/
theorem run_batch_loop_error_of_mem {Img : Type} (env : BatchEnv Img) (i o : PyPath)
    (q : Int) (ow fx : Bool) :
    ∀ (files : List PyPath) (d0 e0 : Nat) (ms0 : List (List Char)) (fs0 : List FSEffect),
      (∃ f ∈ files, ∃ e, make_output_path f i o = Except.error e) →
      (run_batch_loop env i o q ow fx files d0 e0 ms0 fs0).fst =
        Except.error PyErr.valueError := by
  intro files
  induction files with
  | nil =>
    intro d0 e0 ms0 fs0 hex
    simp at hex
  | cons src rest ih =>
    intro d0 e0 ms0 fs0 hex
    simp only [run_batch_loop]
    cases hm : make_output_path src i o with
    | error e =>
      have := make_output_path_error_eq src i o e hm
      subst this
      rfl
    | ok dest =>
      obtain ⟨f, hf, e, he⟩ := hex
      rcases List.mem_cons.mp hf with hf1 | hf2
      · rw [hf1] at he
        rw [he] at hm
        exact absurd hm (by simp)
      · exact ih _ _ _ _ ⟨f, hf2, e, he⟩

example : convert_one unit_oracle true ["in", "a.heic"] ["out", "a.jpg"] 95 false true =
    (okMsg ["in", "a.heic"],
      [FSEffect.mkdir_parents ["out"], FSEffect.save_file ["out", "a.jpg"]]) := by rfl

section MessageLemmas

theorem ok_pre_okMsg (s : PyPath) : "OK: ".toList.isPrefixOf (okMsg s) = true := by
  rw [List.isPrefixOf_iff_prefix]
  exact List.prefix_append _ _

theorem skip_pre_okMsg (s : PyPath) :
    "SKIP (exists): ".toList.isPrefixOf (okMsg s) = false := rfl

theorem err_pre_okMsg (s : PyPath) : "ERROR: ".toList.isPrefixOf (okMsg s) = false := rfl

theorem ok_pre_skipMsg (s : PyPath) : "OK: ".toList.isPrefixOf (skipMsg s) = false := rfl

theorem skip_pre_skipMsg (s : PyPath) :
    "SKIP (exists): ".toList.isPrefixOf (skipMsg s) = true := by
  rw [List.isPrefixOf_iff_prefix]
  exact List.prefix_append _ _

theorem err_pre_skipMsg (s : PyPath) :
    "ERROR: ".toList.isPrefixOf (skipMsg s) = false := rfl

theorem ok_pre_errMsg (s : PyPath) (e : List Char) :
    "OK: ".toList.isPrefixOf (errMsg s e) = false := rfl

theorem skip_pre_errMsg (s : PyPath) (e : List Char) :
    "SKIP (exists): ".toList.isPrefixOf (errMsg s e) = false := rfl

theorem err_pre_errMsg (s : PyPath) (e : List Char) :
    "ERROR: ".toList.isPrefixOf (errMsg s e) = true := by
  rw [List.isPrefixOf_iff_prefix, errMsg]
  simp only [List.append_assoc]
  exact List.prefix_append _ _

end MessageLemmas

/-- Case analysis on `convert_one`: its result is a skip with no write, a
failure after only the parent-directory creation, a failure after the save
attempt, or a success with exactly the parent-directory creation and the one
save. -/
theorem convert_one_cases {Img : Type} (o : ConvOracle Img) (pk : Bool)
    (src dest : PyPath) (q : Int) (ow fx : Bool) :
    convert_one o pk src dest q ow fx = (skipMsg src, []) ∨
    (∃ e, convert_one o pk src dest q ow fx =
        (errMsg src e, [FSEffect.mkdir_parents dest.dropLast])) ∨
    (∃ e, convert_one o pk src dest q ow fx =
        (errMsg src e, [FSEffect.mkdir_parents dest.dropLast, FSEffect.save_file dest])) ∨
    convert_one o pk src dest q ow fx =
      (okMsg src, [FSEffect.mkdir_parents dest.dropLast, FSEffect.save_file dest]) := by
  simp only [convert_one]
  split
  · exact Or.inl rfl
  · split
    · exact Or.inr (Or.inl ⟨_, rfl⟩)
    · split
      · exact Or.inr (Or.inl ⟨_, rfl⟩)
      · split
        · exact Or.inr (Or.inl ⟨_, rfl⟩)
        · split
          · exact Or.inr (Or.inr (Or.inl ⟨_, rfl⟩))
          · exact Or.inr (Or.inr (Or.inr rfl))

/-- Helper: the last component of an appended path is the last component of
the non-empty right part. -/
theorem pathName_append (l1 l2 : PyPath) (h : l2 ≠ []) :
    pathName (l1 ++ l2) = pathName l2 := by
  rw [pathName, pathName, List.getLastD_eq_getLast?, List.getLastD_eq_getLast?,
    List.getLast?_append_of_ne_nil _ h]

/-- C1 counterexample: the file `x.Heic` matches `.heic` case-insensitively,
yet `find_heic_files` does not select it, because the source compares
`p.suffix` against the four literal spellings in `HEIC_EXTS` only. -/
theorem find_heic_files_not_case_insensitive :
    ci_heic_match (pathSuffix ["x.Heic"]) = true ∧
    find_heic_files [⟨["x.Heic"], true⟩] = [] := ⟨by decide, by decide⟩

/-- C1 amended: a walk entry is selected for conversion if and only if it is
a regular file whose extension is exactly one of `.heic`, `.heif`, `.HEIC`,
`.HEIF` (the all-lowercase and all-uppercase spellings); other case mixtures
are not selected. -/
theorem find_heic_files_mem_iff (entries : List FSEntry) (p : PyPath) :
    p ∈ find_heic_files entries ↔
      ∃ en ∈ entries, en.path = p ∧ en.is_file = true ∧ pathSuffix p ∈ HEIC_EXTS := by
  simp only [find_heic_files, List.mem_map, List.mem_filter, Bool.and_eq_true]
  constructor
  · rintro ⟨en, ⟨hmem, hfile, hcont⟩, hpath⟩
    subst hpath
    exact ⟨en, hmem, rfl, hfile, by simpa using hcont⟩
  · rintro ⟨en, hmem, hpath, hfile, hsuf⟩
    subst hpath
    exact ⟨en, ⟨hmem, hfile, by simpa using hsuf⟩, rfl⟩

/-- C2: whenever a batch run completes (returns instead of raising), `total`
is the number of discovered files, `done` equals `total`, and `errors` is
exactly the number of printed lines starting with `"ERROR"`; an empty input
directory yields `(0, 0, 0)`. -/
theorem run_batch_counts {Img : Type} (env : BatchEnv Img) (i o : PyPath)
    (q : Int) (ow fx : Bool) :
    (∀ t d e ms fs,
        run_batch env i o q ow fx = (Except.ok (t, d, e), ms, fs) →
        t = (find_heic_files env.entries).length ∧ d = t ∧
          e = ms.countP (fun m => "ERROR".toList.isPrefixOf m)) ∧
    (env.heif_available = true → env.register_heif = Except.ok () → env.entries = [] →
        run_batch env i o q ow fx = (Except.ok (0, 0, 0), [], [])) := by
  constructor
  · intro t d e ms fs h
    simp only [run_batch] at h
    split at h
    · simp at h
    · split at h
      · simp at h
      · split at h
        · rename_i done errors ms2 fs2 hloop
          simp only [Prod.mk.injEq, Except.ok.injEq] at h
          obtain ⟨⟨ht, hd, he⟩, hms, hfs⟩ := h
          obtain ⟨hd2, ms1, hms1, hlen1, he2⟩ :=
            run_batch_loop_ok_spec env i o q ow fx _ 0 0 [] [] done errors ms2 fs2 hloop
          subst hms
          simp only [List.nil_append] at hms1
          subst hms1
          exact ⟨ht.symm, by omega, by omega⟩
        · simp at h
  · intro h1 h2 h3
    simp [run_batch, h1, h2, h3, find_heic_files, run_batch_loop]

/-- C2 witness: an empty input directory yields `(0, 0, 0)`. -/
theorem run_batch_counts_witness :
    run_batch empty_env ["in"] ["out"] 95 false true = (Except.ok (0, 0, 0), [], []) :=
  (run_batch_counts empty_env ["in"] ["out"] 95 false true).2 rfl rfl rfl

/-- C3 counterexample: `p = inputRoot` is not a descendant of `inputRoot`,
yet the mapping does not fail: `relative_to` accepts it (yielding `.`) and
the result is `outputRoot` itself with `.jpg` appended. -/
theorem make_output_path_root_itself_ok :
    make_output_path ["in"] ["in"] ["out"] = Except.ok ["out.jpg"] := by rfl

/-- C3 amended: for every proper descendant `inputRoot ++ rel` (`rel ≠ []`)
the result is the mirrored path under `outputRoot` with the final extension
replaced by `.jpg` whatever its case; the computation fails with `ValueError`
exactly when `inputRoot`'s components are not a prefix of the source's (so
`p = inputRoot` itself succeeds rather than failing). -/
theorem make_output_path_spec (input_root output_root rel p : PyPath) :
    (rel ≠ [] →
      make_output_path (input_root ++ rel) input_root output_root =
        Except.ok (output_root ++
          (rel.dropLast ++ [pyWithSuffix (pathName rel) ".jpg"]))) ∧
    (¬ p.take input_root.length = input_root →
      make_output_path p input_root output_root = Except.error PyErr.valueError) := by
  constructor
  · intro hrel
    have h1 : relative_to (input_root ++ rel) input_root = Except.ok rel := by
      rw [relative_to, List.take_left, if_pos rfl, List.drop_left]
    rw [make_output_path, h1]
    show pyPathWithSuffix (output_root ++ rel) ".jpg" = _
    rw [pyPathWithSuffix, if_neg (by simp [hrel])]
    rw [List.dropLast_append_of_ne_nil _ hrel, pathName_append _ _ hrel,
      List.append_assoc]
  · intro hp
    have h1 : relative_to p input_root = Except.error PyErr.valueError := by
      rw [relative_to, if_neg hp]
    rw [make_output_path, h1]

/-- C3 witness: a concrete descendant maps to the mirrored `.jpg` path, and
a concrete non-descendant fails with `ValueError`. -/
theorem make_output_path_spec_witness :
    make_output_path (["in"] ++ ["sub", "x.HEIC"]) ["in"] ["out"] =
      Except.ok (["out"] ++ (["sub", "x.HEIC"].dropLast ++
        [pyWithSuffix (pathName ["sub", "x.HEIC"]) ".jpg"])) ∧
    make_output_path ["zz", "a.heic"] ["in"] ["out"] = Except.error PyErr.valueError :=
  ⟨(make_output_path_spec ["in"] ["out"] ["sub", "x.HEIC"] ["zz", "a.heic"]).1 (by decide),
   (make_output_path_spec ["in"] ["out"] ["sub", "x.HEIC"] ["zz", "a.heic"]).2 (by decide)⟩

/-- C4 counterexample: an oracle whose `Image.open` raises.  The outcome is
Failed (an `ERROR` message), yet the effect trace is not empty: the
destination's parent directories were created by `ensure_parent`, which the
source runs before the image is even opened — a filesystem write on a Failed
conversion. -/
theorem convert_one_failed_writes_parent_dirs :
    convert_one fail_open_oracle true ["in", "x.heic"] ["out", "sub", "x.jpg"] 95 false
        true =
      (errMsg ["in", "x.heic"] "boom".toList, [FSEffect.mkdir_parents ["out", "sub"]]) ∧
    ([FSEffect.mkdir_parents ["out", "sub"]] : List FSEffect) ≠ [] := ⟨by rfl, by simp⟩

/-- C4 amended: a Skipped conversion performs no filesystem write; a
Succeeded conversion performs the parent-directory creation and exactly one
write of the destination file; a Failed conversion performs the
parent-directory creation and at most one attempted write of the destination
(the attempt is present exactly when the failure happened inside
`img.save`, which opens the final path before encoding; the code performs no
cleanup). -/
theorem convert_one_effects {Img : Type} (o : ConvOracle Img) (pk : Bool)
    (src dest : PyPath) (q : Int) (ow fx : Bool) :
    ("SKIP (exists): ".toList.isPrefixOf (convert_one o pk src dest q ow fx).fst = true →
        (convert_one o pk src dest q ow fx).snd = []) ∧
    ("OK: ".toList.isPrefixOf (convert_one o pk src dest q ow fx).fst = true →
        (convert_one o pk src dest q ow fx).snd =
          [FSEffect.mkdir_parents dest.dropLast, FSEffect.save_file dest]) ∧
    ("ERROR: ".toList.isPrefixOf (convert_one o pk src dest q ow fx).fst = true →
        (convert_one o pk src dest q ow fx).snd = [FSEffect.mkdir_parents dest.dropLast] ∨
        (convert_one o pk src dest q ow fx).snd =
          [FSEffect.mkdir_parents dest.dropLast, FSEffect.save_file dest]) := by
  rcases convert_one_cases o pk src dest q ow fx with h | ⟨e, h⟩ | ⟨e, h⟩ | h
  · refine ⟨fun _ => by rw [h], fun hc => ?_, fun hc => ?_⟩
    · rw [h] at hc
      have hc2 : "OK: ".toList.isPrefixOf (skipMsg src) = true := hc
      rw [ok_pre_skipMsg] at hc2
      exact Bool.noConfusion hc2
    · rw [h] at hc
      have hc2 : "ERROR: ".toList.isPrefixOf (skipMsg src) = true := hc
      rw [err_pre_skipMsg] at hc2
      exact Bool.noConfusion hc2
  · refine ⟨fun hc => ?_, fun hc => ?_, fun _ => Or.inl (by rw [h])⟩
    · rw [h] at hc
      have hc2 : "SKIP (exists): ".toList.isPrefixOf (errMsg src e) = true := hc
      rw [skip_pre_errMsg] at hc2
      exact Bool.noConfusion hc2
    · rw [h] at hc
      have hc2 : "OK: ".toList.isPrefixOf (errMsg src e) = true := hc
      rw [ok_pre_errMsg] at hc2
      exact Bool.noConfusion hc2
  · refine ⟨fun hc => ?_, fun hc => ?_, fun _ => Or.inr (by rw [h])⟩
    · rw [h] at hc
      have hc2 : "SKIP (exists): ".toList.isPrefixOf (errMsg src e) = true := hc
      rw [skip_pre_errMsg] at hc2
      exact Bool.noConfusion hc2
    · rw [h] at hc
      have hc2 : "OK: ".toList.isPrefixOf (errMsg src e) = true := hc
      rw [ok_pre_errMsg] at hc2
      exact Bool.noConfusion hc2
  · refine ⟨fun hc => ?_, fun _ => by rw [h], fun hc => ?_⟩
    · rw [h] at hc
      have hc2 : "SKIP (exists): ".toList.isPrefixOf (okMsg src) = true := hc
      rw [skip_pre_okMsg] at hc2
      exact Bool.noConfusion hc2
    · rw [h] at hc
      have hc2 : "ERROR: ".toList.isPrefixOf (okMsg src) = true := hc
      rw [err_pre_okMsg] at hc2
      exact Bool.noConfusion hc2

/-- C4 amended witness: a Skipped conversion has an empty effect trace. -/
theorem convert_one_effects_witness :
    (convert_one exist_oracle true ["a.heic"] ["a.jpg"] 95 false true).snd = [] :=
  (convert_one_effects exist_oracle true ["a.heic"] ["a.jpg"] 95 false true).1 (by rfl)

/-- C5 counterexample: a discovered file (`z/a.heic`) that is not under the
input root `in`.  The batch run aborts with the propagated `ValueError` —
zero status lines are printed and no error is counted — instead of producing
a per-file `ERROR` outcome, because `make_output_path` is called on line 113
of `run_batch`, outside `convert_one`'s `try/except`. -/
theorem run_batch_mapping_failure_aborts_concrete :
    run_batch bad_entry_env ["in"] ["out"] 95 false true =
      (Except.error PyErr.valueError, [], []) := by rfl

/-- C5 amended: when the relative-path computation fails for some discovered
file, the `ValueError` propagates out of the per-file loop and aborts the
whole batch (only exceptions raised inside `convert_one` become per-file
`ERROR` outcomes). -/
theorem run_batch_aborts_on_mapping_failure {Img : Type} (env : BatchEnv Img)
    (i o : PyPath) (q : Int) (ow fx : Bool) :
    env.heif_available = true → env.register_heif = Except.ok () →
    (∃ f ∈ find_heic_files env.entries, ∃ e, make_output_path f i o = Except.error e) →
    (run_batch env i o q ow fx).fst = Except.error PyErr.valueError := by
  intro h1 h2 hex
  have hloop := run_batch_loop_error_of_mem env i o q ow fx
    (find_heic_files env.entries) 0 0 [] [] hex
  simp only [run_batch, h1, h2, Bool.not_true, Bool.false_eq_true, if_false]
  rcases hres : run_batch_loop env i o q ow fx (find_heic_files env.entries) 0 0 [] []
    with ⟨res, ms2, fs2⟩
  rw [hres] at hloop
  simp only at hloop
  cases res with
  | ok pr => simp at hloop
  | error e => simp at hloop ⊢; exact hloop

/-- C5 amended witness. -/
theorem run_batch_aborts_on_mapping_failure_witness :
    (run_batch bad_entry_env ["in"] ["out"] 95 false true).fst =
      Except.error PyErr.valueError :=
  run_batch_aborts_on_mapping_failure bad_entry_env ["in"] ["out"] 95 false true rfl rfl
    ⟨["z", "a.heic"], by decide, PyErr.valueError, by rfl⟩

/-- C6: the orientation fixer is a total function (all external calls are
modelled as values, and every failure path is caught): `None` input passes
through, empty bytes pass through, an absent `piexif` passes anything
through, and a raise in `piexif.load` or `piexif.dump` returns the original
bytes unchanged. -/
theorem fix_orientation_exif_bytes_safe :
    ∀ (load : ExifBytes → Except Unit ExifDict) (dump : ExifDict → Except Unit ExifBytes)
      (pk : Bool),
      fix_orientation_exif_bytes pk load dump none = none ∧
      (∀ bs : ExifBytes, bs.isEmpty = true →
          fix_orientation_exif_bytes pk load dump (some bs) = some bs) ∧
      (∀ b : Option ExifBytes, fix_orientation_exif_bytes false load dump b = b) ∧
      (∀ bs : ExifBytes, load bs = Except.error () →
          fix_orientation_exif_bytes true load dump (some bs) = some bs) ∧
      (∀ (bs : ExifBytes) (d : ExifDict), load bs = Except.ok d →
          dump (set_orientation_normal d) = Except.error () →
          fix_orientation_exif_bytes true load dump (some bs) = some bs) := by
  intro load dump pk
  refine ⟨rfl, ?_, ?_, ?_, ?_⟩
  · intro bs h
    simp [fix_orientation_exif_bytes, h]
  · intro b
    cases b with
    | none => rfl
    | some bs => simp [fix_orientation_exif_bytes]
  · intro bs h
    by_cases he : bs.isEmpty
    · simp [fix_orientation_exif_bytes, he]
    · simp [fix_orientation_exif_bytes, he, h]
  · intro bs d h1 h2
    by_cases he : bs.isEmpty
    · simp [fix_orientation_exif_bytes, he]
    · simp [fix_orientation_exif_bytes, he, h1, h2]

/-- C6 witness: a failing `piexif.load` and a failing `piexif.dump` both
return the original bytes. -/
theorem fix_orientation_exif_bytes_safe_witness :
    fix_orientation_exif_bytes true (fun _ => Except.error ()) (fun _ => Except.error ())
        (some [7]) = some [7] ∧
    fix_orientation_exif_bytes true (fun _ => Except.ok [(274, 6)])
        (fun _ => Except.error ()) (some [7]) = some [7] :=
  ⟨(fix_orientation_exif_bytes_safe (fun _ => Except.error ()) (fun _ => Except.error ())
      true).2.2.2.1 [7] rfl,
   (fix_orientation_exif_bytes_safe (fun _ => Except.ok [(274, 6)])
      (fun _ => Except.error ()) true).2.2.2.2 [7] [(274, 6)] rfl rfl⟩

/-- C7: when the destination exists and overwrite is off, the outcome is the
Skipped message and the effect trace is empty — no filesystem write happens
beyond the existence check, so the existing file is untouched. -/
theorem convert_one_skip_no_write {Img : Type} (o : ConvOracle Img) (pk : Bool)
    (src dest : PyPath) (q : Int) (fx : Bool) :
    o.dest_exists = true →
    convert_one o pk src dest q false fx = (skipMsg src, []) := by
  intro h
  simp [convert_one, h]

/-- C7 witness. -/
theorem convert_one_skip_no_write_witness :
    convert_one exist_oracle true ["a.heic"] ["a.jpg"] 95 false true =
      (skipMsg ["a.heic"], []) :=
  convert_one_skip_no_write exist_oracle true ["a.heic"] ["a.jpg"] 95 true rfl

/-- C8: if `pillow_heif` is unavailable, or `register_heif_opener()` raises,
`run_batch` raises `RuntimeError` with nothing printed and no filesystem
effect — no file is discovered or converted. -/
theorem run_batch_fails_fast {Img : Type} (env : BatchEnv Img) (i o : PyPath)
    (q : Int) (ow fx : Bool) :
    (env.heif_available = false →
        run_batch env i o q ow fx =
          (Except.error (PyErr.runtimeError heif_unavailable_msg), [], [])) ∧
    (∀ e, env.register_heif = Except.error e → env.heif_available = true →
        run_batch env i o q ow fx =
          (Except.error (PyErr.runtimeError ("HEIF initialization failed: ".toList ++ e)),
            [], [])) := by
  constructor
  · intro h
    simp [run_batch, h]
  · intro e h1 h2
    simp [run_batch, h1, h2]

/-- C8 witness: both failure modes on concrete environments holding a file
that is then never processed. -/
theorem run_batch_fails_fast_witness :
    run_batch no_heif_env ["in"] ["out"] 95 false true =
      (Except.error (PyErr.runtimeError heif_unavailable_msg), [], []) ∧
    run_batch bad_register_env ["in"] ["out"] 95 false true =
      (Except.error (PyErr.runtimeError
        ("HEIF initialization failed: ".toList ++ "no libheif".toList)), [], []) :=
  ⟨(run_batch_fails_fast no_heif_env ["in"] ["out"] 95 false true).1 rfl,
   (run_batch_fails_fast bad_register_env ["in"] ["out"] 95 false true).2
      "no libheif".toList rfl rfl⟩

/-- C9: the command-line quality is clamped to `[1, 100]` before the batch:
`150` becomes `100`, `0` becomes `1`, and in-range values pass through. -/
theorem clamp_quality_spec :
    clamp_quality 150 = 100 ∧ clamp_quality 0 = 1 ∧
      ∀ q : Int, 1 ≤ q → q ≤ 100 → clamp_quality q = q := by
  refine ⟨by decide, by decide, ?_⟩
  intro q h1 h2
  rw [clamp_quality, min_eq_right h2, max_eq_right h1]

/-- C9 witness: an in-range value passes through unchanged. -/
theorem clamp_quality_spec_witness : clamp_quality 42 = 42 :=
  clamp_quality_spec.2.2 42 (by decide) (by decide)

/-- C10: `convert_one` always returns a status message (it is a total
function; every raise of an external call is caught), and that message starts
with exactly one of `"OK: "`, `"SKIP (exists): "`, `"ERROR: "` — the shapes
`run_batch` relies on to classify outcomes. -/
theorem convert_one_message_classified {Img : Type} (o : ConvOracle Img) (pk : Bool)
    (src dest : PyPath) (q : Int) (ow fx : Bool) :
    ("OK: ".toList.isPrefixOf (convert_one o pk src dest q ow fx).fst = true ∧
      "SKIP (exists): ".toList.isPrefixOf (convert_one o pk src dest q ow fx).fst = false ∧
      "ERROR: ".toList.isPrefixOf (convert_one o pk src dest q ow fx).fst = false) ∨
    ("OK: ".toList.isPrefixOf (convert_one o pk src dest q ow fx).fst = false ∧
      "SKIP (exists): ".toList.isPrefixOf (convert_one o pk src dest q ow fx).fst = true ∧
      "ERROR: ".toList.isPrefixOf (convert_one o pk src dest q ow fx).fst = false) ∨
    ("OK: ".toList.isPrefixOf (convert_one o pk src dest q ow fx).fst = false ∧
      "SKIP (exists): ".toList.isPrefixOf (convert_one o pk src dest q ow fx).fst = false ∧
      "ERROR: ".toList.isPrefixOf (convert_one o pk src dest q ow fx).fst = true) := by
  rcases convert_one_cases o pk src dest q ow fx with h | ⟨e, h⟩ | ⟨e, h⟩ | h <;> rw [h]
  · exact Or.inr (Or.inl ⟨ok_pre_skipMsg src, skip_pre_skipMsg src, err_pre_skipMsg src⟩)
  · exact Or.inr (Or.inr ⟨ok_pre_errMsg src e, skip_pre_errMsg src e, err_pre_errMsg src e⟩)
  · exact Or.inr (Or.inr ⟨ok_pre_errMsg src e, skip_pre_errMsg src e, err_pre_errMsg src e⟩)
  · exact Or.inl ⟨ok_pre_okMsg src, skip_pre_okMsg src, err_pre_okMsg src⟩
